import Mathlib

/-!
Verification of the photolog Photo Ingestion Pipeline
(`src/backend/shared/storage_service.py`, `mysql_client.py`, `nosql_client.py`,
`thumbnail_generator.py`) against its natural-language specification.

The pipeline code is embedded shallowly: every external effect (Blob Store
`upload_file`/`delete_file`, database-client calls) is driven by an explicit
environment of call outcomes, and each embedded operation additionally returns
the trace of external calls it performed, in order.
-/

namespace Photolog

/-- Outcome of one call to a metadata-store (database-client) method:
the Python method returned a success dict, returned a failure dict, or threw. -/
inductive DbOutcome
  | ok
  | err (msg : String)
  | exn (msg : String)
deriving DecidableEq, Repr

/-- Width/height carried with one pre-rendered or generated thumbnail
(the binary payload is irrelevant to the commit protocol and is elided). -/
structure ThumbInfo where
  width : Nat
  height : Nat
deriving DecidableEq, Repr

/-- One external call made by `UnifiedStorageService.upload_photo`. -/
inductive Event
  | blobUpload (objectName : String)
  | dbSave
  | dbUpdateUrls
  | dbUpdateStatus (status : String)
deriving DecidableEq, Repr

/-- The structured result dict returned by `upload_photo`. -/
structure UploadResult where
  success : Bool
  error : Option String := none
  stage : Option String := none
  photo_id : Option String := none
  filename : Option String := none
  file_url : Option String := none
  thumbnail_urls : List (String × String) := []
  file_size : Option Nat := none
  db_saved : Option Bool := none
deriving DecidableEq, Repr

/-- Environment of external effects for one `upload_photo` call: whether the
database client initialized (`self.db_client`), and the predetermined outcome
of each external call the pipeline may make. `uploadOk`/`uploadErr`/`url`
describe `self.storage.upload_file` per object name (that method catches its
own exceptions and returns a dict, so it never throws). `autoThumbs` is the
result of `ThumbnailGenerator.create_thumbnails` (`none` = it threw). -/
structure UploadEnv where
  dbPresent : Bool
  saveOutcome : DbOutcome
  uploadOk : String → Bool
  uploadErr : String → String
  url : String → String
  autoThumbs : Option (List (String × ThumbInfo))
  failedStatusOutcome : DbOutcome
  urlsOutcome : DbOutcome
  statusOutcome : DbOutcome
  outerFailedStatusOutcome : DbOutcome

/-- Python truthiness of an `Optional[Dict]` value: `None` and the empty dict
are falsy (`if self.db_client and metadata:`). -/
def pyTruthyDict {α β : Type} : Option (List (α × β)) → Bool
  | none => false
  | some l => !l.isEmpty

/-- Object names of the Blob Store `upload_file` calls in a trace. -/
def blobCalls (tr : List Event) : List String :=
  tr.filterMap fun e =>
    match e with
    | Event.blobUpload n => some n
    | _ => none

/-- The `except Exception` handler at the bottom of `upload_photo`
(storage_service.py lines 455-468): best-effort status flip to 'failed'
(its own exception is swallowed), then a generic error tagged
stage 'general_error'. -/
def outerHandler (env : UploadEnv) (e : String) (tr : List Event) :
    UploadResult × List Event :=
  let tr := if env.dbPresent then tr ++ [Event.dbUpdateStatus "failed"] else tr
  ({ success := false,
     error := some ("사진 업로드 중 오류: " ++ e),
     stage := some "general_error" }, tr)

/-- The per-size thumbnail upload loop (storage_service.py lines 397-418):
each size is uploaded to `thumbnails/{photo_id}_{size}.jpg`; a failed size is
only logged and omitted from `thumbnail_urls`. Returns the accumulated
`thumbnail_urls` entries and the blob calls, in loop order. -/
def uploadThumbnails (env : UploadEnv) (photo_id : String) :
    List (String × ThumbInfo) → List (String × String) × List Event
  | [] => ([], [])
  | st :: rest =>
    let tname := "thumbnails/" ++ photo_id ++ "_" ++ st.1 ++ ".jpg"
    let restRes := uploadThumbnails env photo_id rest
    if env.uploadOk tname then
      ((st.1, env.url tname) :: restRes.1, Event.blobUpload tname :: restRes.2)
    else
      (restRes.1, Event.blobUpload tname :: restRes.2)

/-- Every external call made by the thumbnail loop is a Blob Store upload
(it performs no database I/O). -/
theorem uploadThumbnails_trace_blob (env : UploadEnv) (pid : String)
    (l : List (String × ThumbInfo)) (e : Event)
    (he : e ∈ (uploadThumbnails env pid l).2) :
    ∃ nm, e = Event.blobUpload nm := by
  induction l with
  | nil => simp [uploadThumbnails] at he
  | cons hd tl ih =>
    rw [uploadThumbnails] at he
    split at he <;> simp only [List.mem_cons] at he <;>
      rcases he with he | he
    · exact ⟨_, he⟩
    · exact ih he
    · exact ⟨_, he⟩
    · exact ih he

/-- The external-call trace of the thumbnail loop is exactly one Blob Store
upload per requested size, in order, regardless of which sizes succeed. -/
theorem uploadThumbnails_trace_eq (env : UploadEnv) (pid : String)
    (l : List (String × ThumbInfo)) :
    (uploadThumbnails env pid l).2 =
      l.map fun st =>
        Event.blobUpload ("thumbnails/" ++ pid ++ "_" ++ st.1 ++ ".jpg") := by
  induction l with
  | nil => rfl
  | cons hd tl ih =>
    simp only [uploadThumbnails, List.map_cons]
    split <;> simp [ih]

/-- Stages 2-4 of `upload_photo` (storage_service.py lines 342-453): original
blob upload (failure flips status to 'failed' best-effort and returns stage
'file_upload'; an exception from that compensating call escapes to the outer
handler), thumbnail selection (caller-provided when truthy, else generated;
generation failure yields an empty set), per-size thumbnail uploads, then the
finalize block whose updateURLs/updateStatus failures are only logged (an
exception from updateURLs skips updateStatus; both are caught), and the
success dict with `db_saved = True`. -/
def uploadPhotoFromStage2 (env : UploadEnv) (file_size : Nat)
    (photo_id file_extension : String)
    (thumbnails : Option (List (String × ThumbInfo))) (tr : List Event) :
    UploadResult × List Event :=
  let original_object_name := "photos/" ++ photo_id ++ file_extension
  let tr := tr ++ [Event.blobUpload original_object_name]
  if env.uploadOk original_object_name then
    let thumbs : List (String × ThumbInfo) :=
      if pyTruthyDict thumbnails then thumbnails.getD [] else env.autoThumbs.getD []
    let step3 := uploadThumbnails env photo_id thumbs
    let thumbnail_urls := step3.1
    let tr := tr ++ step3.2
    let tr :=
      if env.dbPresent then
        match env.urlsOutcome with
        | DbOutcome.exn _ => tr ++ [Event.dbUpdateUrls]
        | _ => tr ++ [Event.dbUpdateUrls, Event.dbUpdateStatus "completed"]
      else tr
    ({ success := true,
       photo_id := some photo_id,
       filename := some (photo_id ++ file_extension),
       file_url := some (env.url original_object_name),
       thumbnail_urls := thumbnail_urls,
       file_size := some file_size,
       db_saved := some true }, tr)
  else
    if env.dbPresent then
      let tr := tr ++ [Event.dbUpdateStatus "failed"]
      match env.failedStatusOutcome with
      | DbOutcome.exn e => outerHandler env e tr
      | _ =>
        ({ success := false,
           error := some ("원본 파일 업로드 실패: " ++
             env.uploadErr original_object_name),
           stage := some "file_upload" }, tr)
    else
      ({ success := false,
         error := some ("원본 파일 업로드 실패: " ++
           env.uploadErr original_object_name),
         stage := some "file_upload" }, tr)

/-- `UnifiedStorageService.upload_photo` (storage_service.py lines 293-468):
stage 1 pre-writes the metadata with status 'uploading' when a database client
exists and `metadata` is truthy; a failure dict or an exception from
`save_photo_metadata` aborts with stage 'metadata_save' before any blob I/O.
Returns the result dict together with the trace of external calls. -/
def upload_photo (env : UploadEnv) (file_size : Nat)
    (photo_id file_extension : String)
    (thumbnails : Option (List (String × ThumbInfo)))
    (metadata : Option (List (String × String))) :
    UploadResult × List Event :=
  if env.dbPresent && pyTruthyDict metadata then
    match env.saveOutcome with
    | DbOutcome.ok =>
      uploadPhotoFromStage2 env file_size photo_id file_extension thumbnails
        [Event.dbSave]
    | DbOutcome.err e =>
      ({ success := false,
         error := some ("메타데이터 저장 실패: " ++ e),
         stage := some "metadata_save" }, [Event.dbSave])
    | DbOutcome.exn e =>
      ({ success := false,
         error := some ("메타데이터 저장 중 오류: " ++ e),
         stage := some "metadata_save" }, [Event.dbSave])
  else
    uploadPhotoFromStage2 env file_size photo_id file_extension thumbnails []

/-- Claim C1: when the metadata pre-write is performed (database client present
and metadata truthy) and `save_photo_metadata` reports failure or raises,
`upload_photo` returns success=false tagged stage "metadata_save" and performs
no Blob Store `upload_file` call (the whole external trace is the single
metadata-save call). -/
theorem upload_photo_metadata_save_abort (env : UploadEnv) (n : Nat)
    (pid ext : String) (thumbs : Option (List (String × ThumbInfo)))
    (meta : List (String × String))
    (hdb : env.dbPresent = true) (hmeta : meta ≠ [])
    (hfail : env.saveOutcome ≠ DbOutcome.ok) :
    (upload_photo env n pid ext thumbs (some meta)).1.success = false ∧
    (upload_photo env n pid ext thumbs (some meta)).1.stage =
      some "metadata_save" ∧
    blobCalls (upload_photo env n pid ext thumbs (some meta)).2 = [] := by
  have htru : pyTruthyDict (some meta) = true := by
    simp [pyTruthyDict, List.isEmpty_iff, hmeta]
  unfold upload_photo
  rw [hdb, htru]
  cases h : env.saveOutcome with
  | ok => exact absurd h hfail
  | err e => simp [blobCalls]
  | exn e => simp [blobCalls]

/-- Concrete environment witnessing C1: database client present, metadata
supplied, and `save_photo_metadata` returns a failure dict. -/
def envC1 : UploadEnv where
  dbPresent := true
  saveOutcome := DbOutcome.err "duplicate key"
  uploadOk := fun _ => true
  uploadErr := fun _ => "unreachable"
  url := fun n => "http://localhost:8001/storage/" ++ n
  autoThumbs := none
  failedStatusOutcome := DbOutcome.ok
  urlsOutcome := DbOutcome.ok
  statusOutcome := DbOutcome.ok
  outerFailedStatusOutcome := DbOutcome.ok

theorem upload_photo_metadata_save_abort_witness :
    (upload_photo envC1 5 "p" ".jpg" none (some [("id", "p")])).1.success =
      false ∧
    (upload_photo envC1 5 "p" ".jpg" none (some [("id", "p")])).1.stage =
      some "metadata_save" ∧
    blobCalls (upload_photo envC1 5 "p" ".jpg" none (some [("id", "p")])).2 =
      [] :=
  upload_photo_metadata_save_abort envC1 5 "p" ".jpg" none [("id", "p")]
    rfl (by decide) (by decide)

/-- Concrete environment for C2: the pre-write and both blob uploads succeed,
while both finalize calls (`update_photo_urls` and `update_upload_status`)
return failure dicts. -/
def envC2 : UploadEnv where
  dbPresent := true
  saveOutcome := DbOutcome.ok
  uploadOk := fun _ => true
  uploadErr := fun _ => "unreachable"
  url := fun n => "http://localhost:8001/storage/" ++ n
  autoThumbs := none
  failedStatusOutcome := DbOutcome.ok
  urlsOutcome := DbOutcome.err "metadata store outage"
  statusOutcome := DbOutcome.err "metadata store outage"
  outerFailedStatusOutcome := DbOutcome.ok

/-- Counterexample to claim C2: with the original and thumbnail blob uploads
succeeding and both finalize calls failing, `upload_photo` still reports
success=true to the immediate caller, with no stage tag, no error field, and
`db_saved = True` — the result does not report the inconsistency. -/
theorem upload_photo_finalize_failure_reports_success_cx :
    (upload_photo envC2 5 "p" ".jpg" (some [("small", ⟨150, 150⟩)])
      (some [("id", "p")])).1.success = true ∧
    (upload_photo envC2 5 "p" ".jpg" (some [("small", ⟨150, 150⟩)])
      (some [("id", "p")])).1.stage = none ∧
    (upload_photo envC2 5 "p" ".jpg" (some [("small", ⟨150, 150⟩)])
      (some [("id", "p")])).1.error = none ∧
    (upload_photo envC2 5 "p" ".jpg" (some [("small", ⟨150, 150⟩)])
      (some [("id", "p")])).1.db_saved = some true := by
  refine ⟨rfl, rfl, rfl, rfl⟩

/-- Claim C2 as amended: when the blob uploads succeed and both finalize
calls fail (returning failure dicts), `upload_photo` swallows the failures
into logs and still returns success=true with `db_saved = True` and no
stage/error tag; both finalize calls were attempted (they appear in the
trace), matching the stage-4 policy of section 7 of the spec. -/
theorem upload_photo_finalize_failure_swallowed (env : UploadEnv) (n : Nat)
    (pid ext : String) (thumbs : Option (List (String × ThumbInfo)))
    (meta : List (String × String)) (a b : String)
    (hdb : env.dbPresent = true) (hmeta : meta ≠ [])
    (hsave : env.saveOutcome = DbOutcome.ok)
    (hup : ∀ nm, env.uploadOk nm = true)
    (hurls : env.urlsOutcome = DbOutcome.err a)
    (hstat : env.statusOutcome = DbOutcome.err b) :
    (upload_photo env n pid ext thumbs (some meta)).1.success = true ∧
    (upload_photo env n pid ext thumbs (some meta)).1.stage = none ∧
    (upload_photo env n pid ext thumbs (some meta)).1.error = none ∧
    (upload_photo env n pid ext thumbs (some meta)).1.db_saved = some true ∧
    Event.dbUpdateUrls ∈ (upload_photo env n pid ext thumbs (some meta)).2 ∧
    Event.dbUpdateStatus "completed" ∈
      (upload_photo env n pid ext thumbs (some meta)).2 := by
  have htru : pyTruthyDict (some meta) = true := by
    simp [pyTruthyDict, List.isEmpty_iff, hmeta]
  simp only [upload_photo, hdb, htru, hsave, Bool.and_self, if_true,
    uploadPhotoFromStage2, hup, hurls]
  simp

theorem upload_photo_finalize_failure_swallowed_witness :
    (upload_photo envC2 7 "q" ".png" none (some [("id", "q")])).1.success =
      true ∧
    (upload_photo envC2 7 "q" ".png" none (some [("id", "q")])).1.stage =
      none ∧
    (upload_photo envC2 7 "q" ".png" none (some [("id", "q")])).1.error =
      none ∧
    (upload_photo envC2 7 "q" ".png" none (some [("id", "q")])).1.db_saved =
      some true ∧
    Event.dbUpdateUrls ∈
      (upload_photo envC2 7 "q" ".png" none (some [("id", "q")])).2 ∧
    Event.dbUpdateStatus "completed" ∈
      (upload_photo envC2 7 "q" ".png" none (some [("id", "q")])).2 :=
  upload_photo_finalize_failure_swallowed envC2 7 "q" ".png" none
    [("id", "q")] "metadata store outage" "metadata store outage"
    rfl (by decide) rfl (fun _ => rfl) rfl rfl

/-- Claim C5: if the original upload succeeds and, among the provided
thumbnail sizes small/medium/large, the upload for "large" fails while
"small" and "medium" succeed, the result has success=true and its
`thumbnail_urls` map has exactly the keys "small" and "medium". -/
theorem upload_photo_partial_thumbnail_tolerance (env : UploadEnv) (n : Nat)
    (pid ext : String) (meta : Option (List (String × String)))
    (t1 t2 t3 : ThumbInfo)
    (hsave : env.saveOutcome = DbOutcome.ok)
    (horig : env.uploadOk ("photos/" ++ pid ++ ext) = true)
    (hsmall : env.uploadOk ("thumbnails/" ++ pid ++ "_" ++ "small" ++ ".jpg") =
      true)
    (hmed : env.uploadOk ("thumbnails/" ++ pid ++ "_" ++ "medium" ++ ".jpg") =
      true)
    (hlarge : env.uploadOk ("thumbnails/" ++ pid ++ "_" ++ "large" ++ ".jpg") =
      false) :
    (upload_photo env n pid ext
      (some [("small", t1), ("medium", t2), ("large", t3)]) meta).1.success =
      true ∧
    (upload_photo env n pid ext
      (some [("small", t1), ("medium", t2), ("large", t3)])
      meta).1.thumbnail_urls.map Prod.fst = ["small", "medium"] := by
  have key : ∀ tr : List Event,
      (uploadPhotoFromStage2 env n pid ext
        (some [("small", t1), ("medium", t2), ("large", t3)]) tr).1.success =
        true ∧
      (uploadPhotoFromStage2 env n pid ext
        (some [("small", t1), ("medium", t2), ("large", t3)])
        tr).1.thumbnail_urls.map Prod.fst = ["small", "medium"] := by
    intro tr
    simp only [uploadPhotoFromStage2, horig, if_true, pyTruthyDict,
      uploadThumbnails, hsmall, hmed, hlarge]
    cases h : env.urlsOutcome <;> simp
  unfold upload_photo
  cases hbranch : (env.dbPresent && pyTruthyDict meta) with
  | true => rw [hsave]; exact key [Event.dbSave]
  | false => exact key []

/-- Concrete environment for C5: every blob upload succeeds except the
"large" thumbnail of photo "p". -/
def envC5 : UploadEnv where
  dbPresent := true
  saveOutcome := DbOutcome.ok
  uploadOk := fun nm => nm != "thumbnails/p_large.jpg"
  uploadErr := fun _ => "507 insufficient storage"
  url := fun n => "http://localhost:8001/storage/" ++ n
  autoThumbs := none
  failedStatusOutcome := DbOutcome.ok
  urlsOutcome := DbOutcome.ok
  statusOutcome := DbOutcome.ok
  outerFailedStatusOutcome := DbOutcome.ok

theorem upload_photo_partial_thumbnail_tolerance_witness :
    (upload_photo envC5 5 "p" ".jpg"
      (some [("small", ⟨150, 150⟩), ("medium", ⟨400, 400⟩),
        ("large", ⟨800, 600⟩)]) (some [("id", "p")])).1.success = true ∧
    (upload_photo envC5 5 "p" ".jpg"
      (some [("small", ⟨150, 150⟩), ("medium", ⟨400, 400⟩),
        ("large", ⟨800, 600⟩)])
      (some [("id", "p")])).1.thumbnail_urls.map Prod.fst =
      ["small", "medium"] :=
  upload_photo_partial_thumbnail_tolerance envC5 5 "p" ".jpg"
    (some [("id", "p")]) ⟨150, 150⟩ ⟨400, 400⟩ ⟨800, 600⟩
    rfl (by decide) (by decide) (by decide) (by decide)

/-- Concrete environment for C10: database client present, all uploads
succeed; the call will supply no metadata dict. -/
def envC10b : UploadEnv where
  dbPresent := true
  saveOutcome := DbOutcome.ok
  uploadOk := fun _ => true
  uploadErr := fun _ => "unreachable"
  url := fun n => "http://localhost:8001/storage/" ++ n
  autoThumbs := none
  failedStatusOutcome := DbOutcome.ok
  urlsOutcome := DbOutcome.ok
  statusOutcome := DbOutcome.ok
  outerFailedStatusOutcome := DbOutcome.ok

/-- Counterexample to claim C10 as stated: when the database client exists
but the caller supplies no metadata dict, `upload_photo` does NOT skip "all
subsequent status/URL updates" — the finalize `update_photo_urls` and
`update_upload_status('completed')` calls still happen (against a row that
was never pre-written), even though the metadata pre-write was skipped and
the result still reports `db_saved = True`. -/
theorem upload_photo_no_metadata_still_updates_cx :
    Event.dbUpdateUrls ∈
      (upload_photo envC10b 5 "p" ".jpg" (some [("small", ⟨150, 150⟩)])
        none).2 ∧
    Event.dbUpdateStatus "completed" ∈
      (upload_photo envC10b 5 "p" ".jpg" (some [("small", ⟨150, 150⟩)])
        none).2 ∧
    Event.dbSave ∉
      (upload_photo envC10b 5 "p" ".jpg" (some [("small", ⟨150, 150⟩)])
        none).2 ∧
    (upload_photo envC10b 5 "p" ".jpg" (some [("small", ⟨150, 150⟩)])
      none).1.db_saved = some true := by
  refine ⟨by decide, by decide, by decide, rfl⟩

/-- Claim C10 as amended: if the database client is absent, `upload_photo`
skips the metadata pre-write and every status/URL update; if the client is
present but the metadata dict is falsy, only the pre-write is skipped while
the finalize URL/status updates still run. In both cases a successful blob
upload returns success=true with `db_saved = True`, so a blob can exist with
no corresponding metadata row and the caller cannot tell from the result. -/
theorem upload_photo_silent_db_skip (env : UploadEnv) (n : Nat)
    (pid ext : String) (thumbs : Option (List (String × ThumbInfo)))
    (meta : Option (List (String × String)))
    (hup : ∀ nm, env.uploadOk nm = true) :
    (env.dbPresent = false →
      (upload_photo env n pid ext thumbs meta).1.success = true ∧
      (upload_photo env n pid ext thumbs meta).1.db_saved = some true ∧
      Event.dbSave ∉ (upload_photo env n pid ext thumbs meta).2 ∧
      Event.dbUpdateUrls ∉ (upload_photo env n pid ext thumbs meta).2 ∧
      Event.dbUpdateStatus "completed" ∉
        (upload_photo env n pid ext thumbs meta).2 ∧
      Event.dbUpdateStatus "failed" ∉
        (upload_photo env n pid ext thumbs meta).2) ∧
    (env.dbPresent = true → pyTruthyDict meta = false →
      (upload_photo env n pid ext thumbs meta).1.success = true ∧
      (upload_photo env n pid ext thumbs meta).1.db_saved = some true ∧
      Event.dbSave ∉ (upload_photo env n pid ext thumbs meta).2 ∧
      Event.dbUpdateUrls ∈ (upload_photo env n pid ext thumbs meta).2) := by
  constructor
  · intro hdb
    simp [upload_photo, uploadPhotoFromStage2, hdb, hup,
      uploadThumbnails_trace_eq]
  · intro hdb hmeta
    cases h : env.urlsOutcome <;>
      simp [upload_photo, uploadPhotoFromStage2, hdb, hmeta, hup, h,
        uploadThumbnails_trace_eq]

/-- Concrete environment with no database client (initialization failed). -/
def envC10a : UploadEnv where
  dbPresent := false
  saveOutcome := DbOutcome.ok
  uploadOk := fun _ => true
  uploadErr := fun _ => "unreachable"
  url := fun n => "http://localhost:8001/storage/" ++ n
  autoThumbs := none
  failedStatusOutcome := DbOutcome.ok
  urlsOutcome := DbOutcome.ok
  statusOutcome := DbOutcome.ok
  outerFailedStatusOutcome := DbOutcome.ok

theorem upload_photo_silent_db_skip_witness :
    ((upload_photo envC10a 5 "p" ".jpg" none none).1.success = true ∧
     (upload_photo envC10a 5 "p" ".jpg" none none).1.db_saved = some true ∧
     Event.dbSave ∉ (upload_photo envC10a 5 "p" ".jpg" none none).2 ∧
     Event.dbUpdateUrls ∉ (upload_photo envC10a 5 "p" ".jpg" none none).2 ∧
     Event.dbUpdateStatus "completed" ∉
       (upload_photo envC10a 5 "p" ".jpg" none none).2 ∧
     Event.dbUpdateStatus "failed" ∉
       (upload_photo envC10a 5 "p" ".jpg" none none).2) ∧
    ((upload_photo envC10b 5 "p" ".jpg" none none).1.success = true ∧
     (upload_photo envC10b 5 "p" ".jpg" none none).1.db_saved = some true ∧
     Event.dbSave ∉ (upload_photo envC10b 5 "p" ".jpg" none none).2 ∧
     Event.dbUpdateUrls ∈ (upload_photo envC10b 5 "p" ".jpg" none none).2) :=
  ⟨(upload_photo_silent_db_skip envC10a 5 "p" ".jpg" none none
      (fun _ => rfl)).1 rfl,
   (upload_photo_silent_db_skip envC10b 5 "p" ".jpg" none none
      (fun _ => rfl)).2 rfl rfl⟩

/-- One external call made by `UnifiedStorageService.delete_photo` (or, for
comparison, by the repository's API-level delete in
tests/test_func_unified.py which also removes the metadata row). -/
inductive DeleteCall
  | blobDelete (objectName : String)
  | dbDeleteMetadata (photo_id : String)
deriving DecidableEq, Repr

/-- The unknown-extension loop of `delete_photo` (storage_service.py lines
737-742): try `.jpg`, `.jpeg`, `.png`, `.webp` in order and stop at the first
`delete_file` that returns True. -/
def tryExtensions (deleteOk : String → Bool) (photo_id : String) :
    List String → Bool × List DeleteCall
  | [] => (false, [])
  | ext :: rest =>
    let oname := "photos/" ++ photo_id ++ ext
    if deleteOk oname then (true, [DeleteCall.blobDelete oname])
    else
      let res := tryExtensions deleteOk photo_id rest
      (res.1, DeleteCall.blobDelete oname :: res.2)

/-- The thumbnail object names `delete_photo` attempts to delete
(storage_service.py lines 744-748): the per-size SUBPATH variant
`thumbnails/{size}/{photo_id}_{size}.jpg`. -/
def thumbnailSubpathNames (photo_id : String) : List String :=
  ["small", "medium", "large"].map fun size =>
    "thumbnails/" ++ size ++ "/" ++ photo_id ++ "_" ++ size ++ ".jpg"

/-- `UnifiedStorageService.delete_photo` (storage_service.py lines 730-754):
deletes the original blob (trying common extensions when none is given), then
the three subpath thumbnail names, returning the conjunction of the original
deletion flag and all three thumbnail deletion flags. It makes no
database-client call. `deleteOk` is the Blob Store `delete_file` result per
object name. -/
def delete_photo (deleteOk : String → Bool) (photo_id : String)
    (file_extension : Option String) : Bool × List DeleteCall :=
  let origStep : Bool × List DeleteCall :=
    match file_extension with
    | some ext =>
      let oname := "photos/" ++ photo_id ++ ext
      (deleteOk oname, [DeleteCall.blobDelete oname])
    | none => tryExtensions deleteOk photo_id [".jpg", ".jpeg", ".png", ".webp"]
  let tnames := thumbnailSubpathNames photo_id
  let thumbnail_deleted := tnames.all deleteOk
  (origStep.1 && thumbnail_deleted,
   origStep.2 ++ tnames.map DeleteCall.blobDelete)

/-- Claim C3 evaluated at the failing input (photo "p", extension ".jpg",
a blob store whose `delete_file` always returns True): `delete_photo` returns
True having attempted only `photos/p.jpg` and the subpath names
`thumbnails/{size}/p_{size}.jpg`, while `upload_photo` wrote the flat names
`thumbnails/p_{size}.jpg` — none of which `delete_photo` touches — and no
metadata-row deletion is ever attempted. -/
theorem delete_photo_mismatch_eval :
    delete_photo (fun _ => true) "p" (some ".jpg") =
      (true, [DeleteCall.blobDelete "photos/p.jpg",
              DeleteCall.blobDelete "thumbnails/small/p_small.jpg",
              DeleteCall.blobDelete "thumbnails/medium/p_medium.jpg",
              DeleteCall.blobDelete "thumbnails/large/p_large.jpg"]) ∧
    blobCalls (uploadThumbnails envC10a "p"
        [("small", ⟨150, 150⟩), ("medium", ⟨400, 400⟩),
         ("large", ⟨800, 600⟩)]).2 =
      ["thumbnails/p_small.jpg", "thumbnails/p_medium.jpg",
       "thumbnails/p_large.jpg"] ∧
    DeleteCall.blobDelete "thumbnails/p_small.jpg" ∉
      (delete_photo (fun _ => true) "p" (some ".jpg")).2 ∧
    DeleteCall.blobDelete "thumbnails/p_medium.jpg" ∉
      (delete_photo (fun _ => true) "p" (some ".jpg")).2 ∧
    DeleteCall.blobDelete "thumbnails/p_large.jpg" ∉
      (delete_photo (fun _ => true) "p" (some ".jpg")).2 ∧
    DeleteCall.dbDeleteMetadata "p" ∉
      (delete_photo (fun _ => true) "p" (some ".jpg")).2 := by
  refine ⟨by decide, by decide, by decide, by decide, by decide, by decide⟩

/-- The method names defined by `MySQLClient` (mysql_client.py). -/
def MySQLClientMethods : List String :=
  ["save_photo_metadata", "update_photo_urls", "update_upload_status",
   "cleanup_failed_uploads", "get_photo_metadata", "list_photos", "get_stats",
   "search_photos_by_location", "delete_photo_metadata",
   "update_photo_metadata", "get_photos_by_location", "get_photos_by_date"]

/-- The method names defined by `OCINoSQLClient` (nosql_client.py). -/
def OCINoSQLClientMethods : List String :=
  ["save_photo_metadata", "get_photo_metadata", "list_photos",
   "search_photos_by_location", "delete_photo_metadata",
   "get_photos_by_location"]

/-- The structured result dict of `cleanup_failed_uploads`. -/
structure CleanupDbResult where
  success : Bool
  error : Option String := none
  cleaned_count : Nat := 0
deriving DecidableEq, Repr

/-- Python dynamic attribute dispatch on a duck-typed client: calling a
method the class does not define raises AttributeError instead of returning
the method's result. -/
def callClientMethod {α : Type} (methods : List String) (name : String)
    (run : Unit → α) : Except String α :=
  if methods.contains name then Except.ok (run ())
  else Except.error ("AttributeError: " ++ name)

/-- `UnifiedStorageService.cleanup_old_uploads` (storage_service.py lines
489-502): with no database client it returns a structured failure dict;
otherwise it forwards to `self.db_client.cleanup_failed_uploads` with no
exception handling, so a missing method surfaces as a raised AttributeError.
`methods` is the method set of the selected backend client and `run` the
behaviour of the method when it exists. -/
def cleanup_old_uploads (dbPresent : Bool) (methods : List String)
    (run : Unit → CleanupDbResult) : Except String CleanupDbResult :=
  if dbPresent then callClientMethod methods "cleanup_failed_uploads" run
  else Except.ok { success := false,
                   error := some "데이터베이스 클라이언트가 없습니다" }

/-- Claim C4 evaluated at the failing input: on the NoSQL backend the
contract operations updateStatus/updateURLs/cleanupStale are all missing, so
`cleanup_old_uploads` raises AttributeError instead of returning a structured
result, while the MySQL backend provides all three and returns the structured
dict. -/
theorem cleanup_old_uploads_nosql_attribute_error :
    cleanup_old_uploads true OCINoSQLClientMethods
      (fun _ => { success := true, cleaned_count := 0 }) =
      Except.error "AttributeError: cleanup_failed_uploads" ∧
    cleanup_old_uploads true MySQLClientMethods
      (fun _ => { success := true, cleaned_count := 0 }) =
      Except.ok { success := true, cleaned_count := 0 } ∧
    OCINoSQLClientMethods.contains "update_upload_status" = false ∧
    OCINoSQLClientMethods.contains "update_photo_urls" = false ∧
    OCINoSQLClientMethods.contains "cleanup_failed_uploads" = false ∧
    MySQLClientMethods.contains "update_upload_status" = true ∧
    MySQLClientMethods.contains "update_photo_urls" = true ∧
    MySQLClientMethods.contains "cleanup_failed_uploads" = true := by
  refine ⟨rfl, rfl, by decide, by decide, by decide, by decide,
    by decide, by decide⟩

/-- One row of the MySQL `photos` table, with the columns named in
`MySQLClient.save_photo_metadata`'s INSERT (mysql_client.py lines 100-114).
Column values other than the key, status and timestamp are opaque to the
claims below, so they are kept as optional strings; `thumbnail_urls_json`
keeps the deserialized association list (JSON serialization is modelled as
the identity on it). -/
structure PhotoRow where
  id : String
  filename : Option String := none
  description : Option String := none
  file_url : Option String := none
  file_size : Option Nat := none
  content_type : Option String := none
  upload_timestamp : Int := 0
  upload_status : String := "completed"
  taken_timestamp : Option String := none
  travel_date : Option String := none
  latitude : Option ℚ := none
  longitude : Option ℚ := none
  location_address : Option String := none
  location_city : Option String := none
  location_country : Option String := none
  thumbnail_small : Option String := none
  thumbnail_medium : Option String := none
  thumbnail_large : Option String := none
  camera_make : Option String := none
  camera_model : Option String := none
  iso_speed : Option String := none
  aperture : Option String := none
  shutter_speed : Option String := none
  focal_length : Option String := none
  thumbnail_urls_json : Option (List (String × String)) := none
  location_json : Option String := none
  exif_data_json : Option String := none
  tags : String := "[]"
deriving DecidableEq, Repr

/-- The structured result dict of the MySQL partial-update methods. -/
structure DbUpdateResult where
  success : Bool
  photo_id : Option String := none
  affected_rows : Nat := 0
  error : Option String := none
deriving DecidableEq, Repr

/-- Tail-recursive helper for `lastSlashSegment`: the characters after the
last '/' seen so far. -/
def lastSegAux : List Char → List Char → List Char
  | [], acc => acc
  | c :: cs, acc =>
    if c = '/' then lastSegAux cs [] else lastSegAux cs (acc ++ [c])

/-- Python's `file_url.split('/')[-1]`: the substring after the last '/'
(the whole string when it has no '/', empty for a trailing '/'). -/
def lastSlashSegment (s : String) : String :=
  ⟨lastSegAux s.data []⟩

/-- `MySQLClient.update_photo_urls` (mysql_client.py lines 191-231): derives
`filename` from the last `/`-segment of `file_url` (NULL when `file_url` is
falsy), serializes `thumbnail_urls` (NULL when the dict is falsy), and runs
`UPDATE photos SET filename = %s, file_url = %s, thumbnail_urls_json = %s
WHERE id = %s`. -/
def update_photo_urls (photo_id file_url : String)
    (thumbnail_urls : List (String × String)) (table : List PhotoRow) :
    List PhotoRow × DbUpdateResult :=
  let filename : Option String :=
    if file_url ≠ "" then some (lastSlashSegment file_url) else none
  let thumbnail_urls_json : Option (List (String × String)) :=
    if thumbnail_urls ≠ [] then some thumbnail_urls else none
  let newTable := table.map fun r =>
    if r.id == photo_id then
      { r with filename := filename, file_url := some file_url,
               thumbnail_urls_json := thumbnail_urls_json }
    else r
  (newTable,
   { success := true, photo_id := some photo_id,
     affected_rows := (table.filter fun r => r.id == photo_id).length })

/-- A stored row whose caller-supplied filename differs from the last URL
segment. -/
def rowC8 : PhotoRow :=
  { id := "p", filename := some "original-name.png",
    upload_status := "completed", upload_timestamp := 1000 }

/-- Counterexample to claim C8: `update_photo_urls` is not URL-only — it also
overwrites `filename` of the identified record with the last `/`-segment of
`file_url`, changing it from "original-name.png" to "p.jpg". -/
theorem update_photo_urls_overwrites_filename_cx :
    (update_photo_urls "p" "http://host/ns/bucket/o/photos/p.jpg"
        [("small", "u")] [rowC8]).1 =
      [{ rowC8 with filename := some "p.jpg",
                    file_url := some "http://host/ns/bucket/o/photos/p.jpg",
                    thumbnail_urls_json := some [("small", "u")] }] ∧
    rowC8.filename = some "original-name.png" ∧
    some "p.jpg" ≠ rowC8.filename := by
  refine ⟨by decide, rfl, by decide⟩

/-- Claim C8 as amended: `update_photo_urls(id, fileUrl, thumbnailUrls)` is a
partial update touching only the `filename`, `file_url` and
`thumbnail_urls_json` columns of the identified record (`filename` is
overwritten with the last `/`-segment of `fileUrl`); for every stored record,
every other field — in particular status, timestamps, location and EXIF
fields — has the same value after the call as before it, and records with a
different id are entirely unchanged. -/
theorem update_photo_urls_frame (photo_id file_url : String)
    (thumbnail_urls : List (String × String)) (table : List PhotoRow) :
    List.Forall₂ (fun r r' : PhotoRow =>
      r'.id = r.id ∧ r'.description = r.description ∧
      r'.file_size = r.file_size ∧ r'.content_type = r.content_type ∧
      r'.upload_timestamp = r.upload_timestamp ∧
      r'.upload_status = r.upload_status ∧
      r'.taken_timestamp = r.taken_timestamp ∧
      r'.travel_date = r.travel_date ∧
      r'.latitude = r.latitude ∧ r'.longitude = r.longitude ∧
      r'.location_address = r.location_address ∧
      r'.location_city = r.location_city ∧
      r'.location_country = r.location_country ∧
      r'.thumbnail_small = r.thumbnail_small ∧
      r'.thumbnail_medium = r.thumbnail_medium ∧
      r'.thumbnail_large = r.thumbnail_large ∧
      r'.camera_make = r.camera_make ∧ r'.camera_model = r.camera_model ∧
      r'.iso_speed = r.iso_speed ∧ r'.aperture = r.aperture ∧
      r'.shutter_speed = r.shutter_speed ∧ r'.focal_length = r.focal_length ∧
      r'.location_json = r.location_json ∧
      r'.exif_data_json = r.exif_data_json ∧ r'.tags = r.tags ∧
      (r.id ≠ photo_id → r' = r))
      table (update_photo_urls photo_id file_url thumbnail_urls table).1 := by
  have hmap : (update_photo_urls photo_id file_url thumbnail_urls table).1 =
      table.map (fun r =>
        if r.id == photo_id then
          { r with
            filename := if file_url ≠ "" then
              some (lastSlashSegment file_url) else none,
            file_url := some file_url,
            thumbnail_urls_json := if thumbnail_urls ≠ [] then
              some thumbnail_urls else none }
        else r) := rfl
  rw [hmap, List.forall₂_map_right_iff, List.forall₂_same]
  intro x hx
  cases h : x.id == photo_id
  · simp [h]
  · have hid : x.id = photo_id := by simpa using h
    simp [h, hid]

/-- The structured result dict of `MySQLClient.cleanup_failed_uploads`:
count and (id, filename) identifiers of the transitioned records. -/
structure CleanupSweepResult where
  success : Bool
  cleaned_count : Nat
  failed_uploads : List (String × Option String)
deriving DecidableEq, Repr

/-- The SELECT predicate of the reconciliation sweep (mysql_client.py lines
280-284): `upload_status = 'uploading' AND upload_timestamp <
DATE_SUB(NOW(), INTERVAL hours_old HOUR)`, with timestamps in seconds. -/
def isStaleUploading (now hours_old : Int) (r : PhotoRow) : Bool :=
  r.upload_status == "uploading" &&
    decide (r.upload_timestamp < now - hours_old * 3600)

/-- `MySQLClient.cleanup_failed_uploads` (mysql_client.py lines 265-307):
SELECTs the stale 'uploading' records, UPDATEs `upload_status = 'failed'`
for the selected ids (skipped when the selection is empty, which coincides
with updating along an empty id list), and returns the count and the
(id, filename) pairs. -/
def cleanup_failed_uploads (now hours_old : Int) (table : List PhotoRow) :
    List PhotoRow × CleanupSweepResult :=
  let failed_uploads := table.filter (isStaleUploading now hours_old)
  let photo_ids := failed_uploads.map PhotoRow.id
  let newTable := table.map fun r =>
    if photo_ids.contains r.id then { r with upload_status := "failed" }
    else r
  (newTable,
   { success := true, cleaned_count := failed_uploads.length,
     failed_uploads := failed_uploads.map fun r => (r.id, r.filename) })

/-- A sweep on a table with no stale 'uploading' record is a no-op: the table
is unchanged and 0 records are counted. -/
theorem cleanup_sweep_noop (now hours_old : Int) (t : List PhotoRow)
    (h : t.filter (isStaleUploading now hours_old) = []) :
    (cleanup_failed_uploads now hours_old t).1 = t ∧
    (cleanup_failed_uploads now hours_old t).2.cleaned_count = 0 := by
  constructor
  · simp [cleanup_failed_uploads, h]
  · simp [cleanup_failed_uploads, h]

/-- Claim C6: on a table with unique primary keys, the sweep transitions
exactly the stale 'uploading' records to 'failed' (every other record is
unchanged, as the pointwise map form states), returns their count and
(id, filename) identifiers, and an immediately repeated sweep transitions 0
records and leaves the table unchanged (idempotence). -/
theorem cleanup_failed_uploads_sweep (now hours_old : Int)
    (table : List PhotoRow) (hnd : (table.map PhotoRow.id).Nodup) :
    (cleanup_failed_uploads now hours_old table).2.cleaned_count =
      (table.filter (isStaleUploading now hours_old)).length ∧
    (cleanup_failed_uploads now hours_old table).2.failed_uploads =
      (table.filter (isStaleUploading now hours_old)).map
        (fun r => (r.id, r.filename)) ∧
    (cleanup_failed_uploads now hours_old table).1 =
      table.map (fun r =>
        if isStaleUploading now hours_old r then
          { r with upload_status := "failed" }
        else r) ∧
    (cleanup_failed_uploads now hours_old
      (cleanup_failed_uploads now hours_old table).1).2.cleaned_count = 0 ∧
    (cleanup_failed_uploads now hours_old
      (cleanup_failed_uploads now hours_old table).1).1 =
      (cleanup_failed_uploads now hours_old table).1 := by
  have hinj := List.inj_on_of_nodup_map hnd
  have hkey : ∀ r ∈ table,
      ((table.filter (isStaleUploading now hours_old)).map
        PhotoRow.id).contains r.id = isStaleUploading now hours_old r := by
    intro r hr
    cases hst : isStaleUploading now hours_old r
    · rw [Bool.eq_false_iff]
      intro hc
      rcases List.mem_map.mp (List.elem_iff.mp hc) with ⟨s, hs, hsid⟩
      have hsf := List.mem_filter.mp hs
      have hsr : s = r := hinj hsf.1 hr hsid
      rw [hsr, hst] at hsf
      exact Bool.false_ne_true hsf.2
    · exact List.elem_iff.mpr
        (List.mem_map.mpr ⟨r, List.mem_filter.mpr ⟨hr, hst⟩, rfl⟩)
  have hthird : (cleanup_failed_uploads now hours_old table).1 =
      table.map (fun r =>
        if isStaleUploading now hours_old r then
          { r with upload_status := "failed" }
        else r) := by
    refine List.map_eq_map_iff.mpr ?_
    intro r hr
    rw [hkey r hr]
  have hfilter2 : ((cleanup_failed_uploads now hours_old table).1).filter
      (isStaleUploading now hours_old) = [] := by
    rw [hthird, List.filter_eq_nil_iff]
    intro a ha
    rcases List.mem_map.mp ha with ⟨r, hr, rfl⟩
    cases hst : isStaleUploading now hours_old r
    · simp [hst]
    · simp [hst, isStaleUploading]
  refine ⟨rfl, rfl, hthird, ?_, ?_⟩
  · exact (cleanup_sweep_noop now hours_old _ hfilter2).2
  · exact (cleanup_sweep_noop now hours_old _ hfilter2).1

/-- A concrete table for the sweep: two stale 'uploading' rows ("a", "d"),
one fresh 'uploading' row ("b") and one 'completed' row ("c"), swept at
now = 10000 s with a 1-hour threshold (so stale means timestamp < 6400). -/
def tableC6 : List PhotoRow :=
  [{ id := "a", filename := some "a.jpg", upload_status := "uploading",
     upload_timestamp := 0 },
   { id := "b", filename := some "b.jpg", upload_status := "uploading",
     upload_timestamp := 9000 },
   { id := "c", filename := some "c.jpg", upload_status := "completed",
     upload_timestamp := 0 },
   { id := "d", filename := some "d.jpg", upload_status := "uploading",
     upload_timestamp := 100 }]

theorem cleanup_failed_uploads_sweep_witness :
    (cleanup_failed_uploads 10000 1 tableC6).2.cleaned_count =
      (tableC6.filter (isStaleUploading 10000 1)).length ∧
    (cleanup_failed_uploads 10000 1 tableC6).2.failed_uploads =
      (tableC6.filter (isStaleUploading 10000 1)).map
        (fun r => (r.id, r.filename)) ∧
    (cleanup_failed_uploads 10000 1 tableC6).1 =
      tableC6.map (fun r =>
        if isStaleUploading 10000 1 r then
          { r with upload_status := "failed" }
        else r) ∧
    (cleanup_failed_uploads 10000 1
      (cleanup_failed_uploads 10000 1 tableC6).1).2.cleaned_count = 0 ∧
    (cleanup_failed_uploads 10000 1
      (cleanup_failed_uploads 10000 1 tableC6).1).1 =
      (cleanup_failed_uploads 10000 1 tableC6).1 :=
  cleanup_failed_uploads_sweep 10000 1 tableC6 (by decide)

/-- The geometry computed by one letterboxed thumbnail: output canvas size,
resized-region size, paste offsets, and the width/height reported in the
returned dict. -/
structure ThumbnailGeom where
  out_width : Nat
  out_height : Nat
  new_width : Int
  new_height : Int
  paste_x : Int
  paste_y : Int
  reported_width : Nat
  reported_height : Nat
deriving DecidableEq, Repr

/-- Geometry of `ThumbnailGenerator._create_single_thumbnail`
(thumbnail_generator.py lines 106-141): ratio = min(targetW/srcW,
targetH/srcH); resized size = int(src * ratio) per axis; canvas =
Image.new(target size); paste offset = (target - new) // 2 per axis
(Python floor division); the returned dict reports the target dimensions.
Python float arithmetic is modelled with exact rationals (the nonnegative
truncation int() is the rational floor). -/
def create_single_thumbnail_geom (original_width original_height
    target_width target_height : Nat) : ThumbnailGeom :=
  let ratio : ℚ := min ((target_width : ℚ) / (original_width : ℚ))
    ((target_height : ℚ) / (original_height : ℚ))
  let new_width : Int := ⌊(original_width : ℚ) * ratio⌋
  let new_height : Int := ⌊(original_height : ℚ) * ratio⌋
  let paste_x : Int := ((target_width : Int) - new_width).fdiv 2
  let paste_y : Int := ((target_height : Int) - new_height).fdiv 2
  { out_width := target_width, out_height := target_height,
    new_width := new_width, new_height := new_height,
    paste_x := paste_x, paste_y := paste_y,
    reported_width := target_width, reported_height := target_height }

/-- Counterexample to claim C7: a 1×2 source letterboxed into a 10×10 spec
(ratio exactly 5, so float and rational arithmetic agree) gives a 5-wide
resized region pasted at x = 2 — 2 pixels of padding on the left but 3 on
the right, so the padding on the two opposite sides of the padded axis is
NOT equal. -/
theorem thumbnail_letterbox_unequal_padding_cx :
    (create_single_thumbnail_geom 1 2 10 10).new_width = 5 ∧
    (create_single_thumbnail_geom 1 2 10 10).paste_x = 2 ∧
    (10 : Int) - (create_single_thumbnail_geom 1 2 10 10).new_width -
      (create_single_thumbnail_geom 1 2 10 10).paste_x = 3 ∧
    (create_single_thumbnail_geom 1 2 10 10).paste_x ≠
      (10 : Int) - (create_single_thumbnail_geom 1 2 10 10).new_width -
        (create_single_thumbnail_geom 1 2 10 10).paste_x := by
  have h5 : (create_single_thumbnail_geom 1 2 10 10).new_width = 5 := by
    show (⌊(1 : ℚ) * min ((10 : ℚ) / (1 : ℚ)) ((10 : ℚ) / (2 : ℚ))⌋ : Int) = 5
    norm_num
  have h2 : (create_single_thumbnail_geom 1 2 10 10).paste_x = 2 := by
    show ((10 : Int) - (create_single_thumbnail_geom 1 2 10 10).new_width).fdiv
      2 = 2
    rw [h5]
    norm_num [Int.fdiv]
  refine ⟨h5, h2, by rw [h5, h2]; decide, by rw [h5, h2]; decide⟩

/-- Claim C7 as amended: every derived thumbnail's canvas is exactly the
target width × height and is reported as such; the resized region fits the
canvas, and it is floor-centered: on each axis the two opposite paddings sum
to the free space and differ by at most one pixel (exactly one when the free
space is odd, as the counterexample shows). -/
theorem thumbnail_letterbox_dims_centered (ow oh tw th : Nat)
    (hw : 0 < ow) (hh : 0 < oh) :
    (create_single_thumbnail_geom ow oh tw th).out_width = tw ∧
    (create_single_thumbnail_geom ow oh tw th).out_height = th ∧
    (create_single_thumbnail_geom ow oh tw th).reported_width = tw ∧
    (create_single_thumbnail_geom ow oh tw th).reported_height = th ∧
    0 ≤ (create_single_thumbnail_geom ow oh tw th).new_width ∧
    (create_single_thumbnail_geom ow oh tw th).new_width ≤ (tw : Int) ∧
    0 ≤ (create_single_thumbnail_geom ow oh tw th).new_height ∧
    (create_single_thumbnail_geom ow oh tw th).new_height ≤ (th : Int) ∧
    0 ≤ (create_single_thumbnail_geom ow oh tw th).paste_x ∧
    (create_single_thumbnail_geom ow oh tw th).paste_x ≤
      (tw : Int) - (create_single_thumbnail_geom ow oh tw th).new_width -
        (create_single_thumbnail_geom ow oh tw th).paste_x ∧
    (tw : Int) - (create_single_thumbnail_geom ow oh tw th).new_width -
        (create_single_thumbnail_geom ow oh tw th).paste_x ≤
      (create_single_thumbnail_geom ow oh tw th).paste_x + 1 ∧
    0 ≤ (create_single_thumbnail_geom ow oh tw th).paste_y ∧
    (create_single_thumbnail_geom ow oh tw th).paste_y ≤
      (th : Int) - (create_single_thumbnail_geom ow oh tw th).new_height -
        (create_single_thumbnail_geom ow oh tw th).paste_y ∧
    (th : Int) - (create_single_thumbnail_geom ow oh tw th).new_height -
        (create_single_thumbnail_geom ow oh tw th).paste_y ≤
      (create_single_thumbnail_geom ow oh tw th).paste_y + 1 := by
  have how : ((ow : ℚ)) ≠ 0 := Nat.cast_ne_zero.mpr hw.ne'
  have hoh : ((oh : ℚ)) ≠ 0 := Nat.cast_ne_zero.mpr hh.ne'
  have hq0 : 0 ≤ min ((tw : ℚ) / (ow : ℚ)) ((th : ℚ) / (oh : ℚ)) :=
    le_min (div_nonneg (Nat.cast_nonneg _) (Nat.cast_nonneg _))
      (div_nonneg (Nat.cast_nonneg _) (Nat.cast_nonneg _))
  have hnw0 : 0 ≤ (create_single_thumbnail_geom ow oh tw th).new_width :=
    Int.floor_nonneg.mpr (mul_nonneg (Nat.cast_nonneg _) hq0)
  have hnh0 : 0 ≤ (create_single_thumbnail_geom ow oh tw th).new_height :=
    Int.floor_nonneg.mpr (mul_nonneg (Nat.cast_nonneg _) hq0)
  have hnwle : (create_single_thumbnail_geom ow oh tw th).new_width ≤
      (tw : Int) := by
    have h1 : (ow : ℚ) * min ((tw : ℚ) / (ow : ℚ)) ((th : ℚ) / (oh : ℚ)) ≤
        (tw : ℚ) := by
      calc (ow : ℚ) * min ((tw : ℚ) / (ow : ℚ)) ((th : ℚ) / (oh : ℚ)) ≤
            (ow : ℚ) * ((tw : ℚ) / (ow : ℚ)) :=
              mul_le_mul_of_nonneg_left (min_le_left _ _) (Nat.cast_nonneg _)
        _ = (tw : ℚ) := by rw [mul_comm, div_mul_cancel₀ _ how]
    calc (create_single_thumbnail_geom ow oh tw th).new_width ≤
          ⌊(tw : ℚ)⌋ := Int.floor_le_floor h1
      _ = (tw : Int) := Int.floor_natCast tw
  have hnhle : (create_single_thumbnail_geom ow oh tw th).new_height ≤
      (th : Int) := by
    have h1 : (oh : ℚ) * min ((tw : ℚ) / (ow : ℚ)) ((th : ℚ) / (oh : ℚ)) ≤
        (th : ℚ) := by
      calc (oh : ℚ) * min ((tw : ℚ) / (ow : ℚ)) ((th : ℚ) / (oh : ℚ)) ≤
            (oh : ℚ) * ((th : ℚ) / (oh : ℚ)) :=
              mul_le_mul_of_nonneg_left (min_le_right _ _) (Nat.cast_nonneg _)
        _ = (th : ℚ) := by rw [mul_comm, div_mul_cancel₀ _ hoh]
    calc (create_single_thumbnail_geom ow oh tw th).new_height ≤
          ⌊(th : ℚ)⌋ := Int.floor_le_floor h1
      _ = (th : Int) := Int.floor_natCast th
  have hpx : (create_single_thumbnail_geom ow oh tw th).paste_x =
      ((tw : Int) - (create_single_thumbnail_geom ow oh tw th).new_width) /
        2 :=
    Int.fdiv_eq_ediv _ (by norm_num)
  have hpy : (create_single_thumbnail_geom ow oh tw th).paste_y =
      ((th : Int) - (create_single_thumbnail_geom ow oh tw th).new_height) /
        2 :=
    Int.fdiv_eq_ediv _ (by norm_num)
  refine ⟨rfl, rfl, rfl, rfl, hnw0, hnwle, hnh0, hnhle, ?_, ?_, ?_, ?_, ?_,
    ?_⟩ <;> simp only [hpx, hpy] <;> omega

theorem thumbnail_letterbox_dims_centered_witness :
    (create_single_thumbnail_geom 3 5 150 150).out_width = 150 ∧
    (create_single_thumbnail_geom 3 5 150 150).out_height = 150 ∧
    (create_single_thumbnail_geom 3 5 150 150).reported_width = 150 ∧
    (create_single_thumbnail_geom 3 5 150 150).reported_height = 150 ∧
    0 ≤ (create_single_thumbnail_geom 3 5 150 150).new_width ∧
    (create_single_thumbnail_geom 3 5 150 150).new_width ≤ (150 : Int) ∧
    0 ≤ (create_single_thumbnail_geom 3 5 150 150).new_height ∧
    (create_single_thumbnail_geom 3 5 150 150).new_height ≤ (150 : Int) ∧
    0 ≤ (create_single_thumbnail_geom 3 5 150 150).paste_x ∧
    (create_single_thumbnail_geom 3 5 150 150).paste_x ≤
      (150 : Int) - (create_single_thumbnail_geom 3 5 150 150).new_width -
        (create_single_thumbnail_geom 3 5 150 150).paste_x ∧
    (150 : Int) - (create_single_thumbnail_geom 3 5 150 150).new_width -
        (create_single_thumbnail_geom 3 5 150 150).paste_x ≤
      (create_single_thumbnail_geom 3 5 150 150).paste_x + 1 ∧
    0 ≤ (create_single_thumbnail_geom 3 5 150 150).paste_y ∧
    (create_single_thumbnail_geom 3 5 150 150).paste_y ≤
      (150 : Int) - (create_single_thumbnail_geom 3 5 150 150).new_height -
        (create_single_thumbnail_geom 3 5 150 150).paste_y ∧
    (150 : Int) - (create_single_thumbnail_geom 3 5 150 150).new_height -
        (create_single_thumbnail_geom 3 5 150 150).paste_y ≤
      (create_single_thumbnail_geom 3 5 150 150).paste_y + 1 :=
  thumbnail_letterbox_dims_centered 3 5 150 150 (by decide) (by decide)

/-- A stored location document with the required latitude/longitude fields
(coordinates modelled as exact rationals). -/
structure GeoLocation where
  latitude : ℚ
  longitude : ℚ
deriving DecidableEq, Repr

/-- A NoSQL photo document as relevant to the location search: rows whose
`location` is absent, falsy or lacks coordinates are modelled as `none`
(the code skips them, including the malformed-JSON `except: continue`). -/
structure NoSQLPhoto where
  id : String
  location : Option GeoLocation := none
deriving DecidableEq, Repr

/-- The client-side distance filter of
`OCINoSQLClient.search_photos_by_location` (nosql_client.py lines 244-250):
`lat_diff < radius_km/111.0 and lng_diff < radius_km/111.0` on the absolute
coordinate differences — a bounding-box prefilter with no exact distance
check after it. -/
def inBoundingBox (latitude longitude radius_km : ℚ)
    (loc : GeoLocation) : Bool :=
  decide (|loc.latitude - latitude| < radius_km / 111) &&
    decide (|loc.longitude - longitude| < radius_km / 111)

/-- `OCINoSQLClient.search_photos_by_location` (nosql_client.py lines
198-276), reduced to the `photos` list it returns: a full-table fetch
(`SELECT * FROM table`) filtered client-side by the bounding box only. The
`limit` parameter is accepted but never applied. -/
def search_photos_by_location (latitude longitude radius_km : ℚ)
    (limit : Nat) (rows : List NoSQLPhoto) : List NoSQLPhoto :=
  rows.filter fun p =>
    match p.location with
    | some loc => inBoundingBox latitude longitude radius_km loc
    | none => false

/-- Two photos stored exactly at the query point. -/
def rowsC9 : List NoSQLPhoto :=
  [{ id := "a", location := some { latitude := 0, longitude := 0 } },
   { id := "b", location := some { latitude := 0, longitude := 0 } }]

/-- Counterexample to claim C9: with two photos at distance 0 from the query
point and limit = 1, the NoSQL search returns both photos — more than
`limit` results, because the code never applies `limit`. -/
theorem search_photos_ignores_limit_cx :
    (search_photos_by_location 0 0 10 1 rowsC9).length = 2 ∧
    ¬ (search_photos_by_location 0 0 10 1 rowsC9).length ≤ 1 := by
  have hbox : inBoundingBox 0 0 10 { latitude := 0, longitude := 0 } =
      true := by
    simp only [inBoundingBox, Bool.and_eq_true, decide_eq_true_eq]
    norm_num
  constructor
  · simp [search_photos_by_location, rowsC9, hbox]
  · simp [search_photos_by_location, rowsC9, hbox]

/-- Claim C9 as amended: on the NoSQL backend,
`search_photos_by_location(lat, lon, radius_km, limit)` returns exactly the
stored photos whose location passes the bounding-box prefilter (strict
|Δlat| < radius_km/111 and |Δlon| < radius_km/111, degrees ≈ km/111 per
axis); no exact distance check follows the prefilter and the `limit`
parameter is ignored (the result is the same for any limit). -/
theorem search_photos_box_only (latitude longitude radius_km : ℚ)
    (limit limit' : Nat) (rows : List NoSQLPhoto) (p : NoSQLPhoto) :
    (p ∈ search_photos_by_location latitude longitude radius_km limit rows ↔
      p ∈ rows ∧ ∃ loc, p.location = some loc ∧
        |loc.latitude - latitude| < radius_km / 111 ∧
        |loc.longitude - longitude| < radius_km / 111) ∧
    search_photos_by_location latitude longitude radius_km limit rows =
      search_photos_by_location latitude longitude radius_km limit' rows := by
  refine ⟨?_, rfl⟩
  unfold search_photos_by_location
  rw [List.mem_filter]
  constructor
  · rintro ⟨hp, hcond⟩
    refine ⟨hp, ?_⟩
    cases hloc : p.location with
    | none => rw [hloc] at hcond; simp at hcond
    | some loc =>
      rw [hloc] at hcond
      refine ⟨loc, rfl, ?_⟩
      simpa [inBoundingBox] using hcond
  · rintro ⟨hp, loc, hloc, h1, h2⟩
    refine ⟨hp, ?_⟩
    rw [hloc]
    simp [inBoundingBox, h1, h2]

end Photolog
